import Mathlib

/-!
Shallow embedding of `src/main.py` (TicketAutomation): the batch
orchestrator `AutomationBot.run_automation`, the per-record sequence
`process_ticket_creation`, the filter-result validator
`validate_filter_result`, the network-response status check
`check_ticket_creation_status`, the injected network listener's stored
value, and the daily work-list loader `DataManager.read_daily_input`.

Browser interactions (dropdown selection, element location, clicks,
page loads) and the asynchronously observed network responses are
modelled as environments: functions from attempt/poll indices to the
outcome the browser would deliver, so every code path of the Python
control flow is represented while the out-of-scope Browser Control
Interface stays abstract.
-/

namespace TicketAutomation

/-- `AttemptOutcome`: the tagged result of one end-to-end attempt on a
record, the string statuses "SUCCESS" / "FAIL" / "TIMEOUT" of the source. -/
inductive Result where
  | SUCCESS
  | FAIL
  | TIMEOUT
deriving DecidableEq, Repr

/-- Validation statuses returned by `validate_filter_result`
("MATCH" / "MISMATCH" / "NO_DATA" / "VALIDATION_FAILED"). -/
inductive VStatus where
  | MATCH
  | MISMATCH
  | NO_DATA
  | VALIDATION_FAILED
deriving DecidableEq, Repr

/-! ## DataManager.read_daily_input (src/main.py lines 297-314)

The file is modelled as its list of raw lines.  The loop strips each
line, skips it when it is empty, starts with '#', or was already seen,
and otherwise records it in both the seen set and the output list. -/

/-- Python's `str.strip()`: drop leading and trailing whitespace
(modelled on the string's character list so it evaluates). -/
def pyStrip (s : String) : String :=
  String.mk
    (((s.data.dropWhile Char.isWhitespace).reverse.dropWhile
      Char.isWhitespace).reverse)

/-- Python's `line.startswith('#')`: the first character is '#'. -/
def startsWithHash (s : String) : Bool :=
  match s.data with
  | [] => false
  | c :: _ => c = '#'

/-- Loop body of `read_daily_input`: `seen` is the `seen_codes` set
(modelled as the list of codes added so far). -/
def readDailyGo (seen : List String) : List String → List String
  | [] => []
  | l :: rest =>
    if pyStrip l = "" ∨ startsWithHash (pyStrip l) ∨ pyStrip l ∈ seen then
      readDailyGo seen rest
    else pyStrip l :: readDailyGo (pyStrip l :: seen) rest

/-- `DataManager.read_daily_input`, on the file's list of raw lines. -/
def read_daily_input (lines : List String) : List String :=
  readDailyGo [] lines

/-- The stripped lines of the input that are non-empty and not comments,
duplicates included — the spec's "stripped non-empty lines that do not
begin with '#'". -/
def goodLines : List String → List String
  | [] => []
  | l :: rest =>
    if pyStrip l = "" ∨ startsWithHash (pyStrip l) then goodLines rest
    else pyStrip l :: goodLines rest

/-- Spec-side dedup: collapse every duplicate to its first occurrence,
preserving first-seen order. -/
def dedupKeepFirst : List String → List String
  | [] => []
  | a :: rest => a :: dedupKeepFirst (rest.filter (fun x => x ≠ a))
termination_by l => l.length
decreasing_by
  simp only [List.length_cons]
  exact Nat.lt_succ_of_le (List.length_filter_le _ _)

/-! ## AutomationBot.validate_filter_result (src/main.py lines 416-434)

Per validation attempt the page may show a "no data" indicator and may
expose a first-row code cell; both are read from an environment indexed
by the attempt number. -/

/-- What the page shows to `validate_filter_result` on each of its
attempts: whether one of the `no_data_message` elements is displayed, and
the raw text of the first result row's code cell when that cell is found
(`none` models `wait_for_element` returning no element). -/
structure ValidationEnv where
  noDataVisible : Nat → Bool
  resultCell : Nat → Option String

/-- Loop of `validate_filter_result`: `attempt` is the current attempt
index, the second argument the number of attempts remaining.  The
no-data check runs first; a found cell is stripped and compared to the
expected code and returns immediately; a missing cell retries. -/
def validateGo (env : ValidationEnv) (expected : String) (attempt : Nat) :
    Nat → Bool × VStatus
  | 0 => (false, .VALIDATION_FAILED)
  | rem + 1 =>
    if env.noDataVisible attempt then (false, .NO_DATA)
    else
      match env.resultCell attempt with
      | some t =>
        if pyStrip t = expected then (true, .MATCH) else (false, .MISMATCH)
      | none => validateGo env expected (attempt + 1) rem

/-- `AutomationBot.validate_filter_result` (the source calls it with the
default `max_attempts=3`). -/
def validate_filter_result (env : ValidationEnv) (expected : String)
    (maxAttempts : Nat) : Bool × VStatus :=
  validateGo env expected 0 maxAttempts

/-! ## The injected network listener (src/main.py lines 345-370) and
AutomationBot.check_ticket_creation_status (lines 436-453) -/

/-- The page-scoped `window.ticket_creation_response` value once set: a
structured response with an optional numeric `code` field (absent when
the JSON body had no `code` key, and in particular absent in the
parse-error marker), plus the flag telling whether it is the
`{error: 'JSON parse error', data: ...}` marker. -/
structure Resp where
  code : Option Int
  parseError : Bool
deriving DecidableEq, Repr

/-- What the injected listener stores for a creation-endpoint response:
`parsed = some c` models `JSON.parse` succeeding with `c` the value of
the body's `code` field (`none` inside when the field is absent);
`parsed = none` models `JSON.parse` throwing, in which case the
`{error: 'JSON parse error', data: ...}` marker — which has no
status-code field — is stored. -/
def listenerStore (parsed : Option (Option Int)) : Resp :=
  match parsed with
  | some c => ⟨c, false⟩
  | none => ⟨none, true⟩

/-- Polling loop of `check_ticket_creation_status`: `poll i` is the value
of `window.ticket_creation_response` read at the i-th poll (`none` for a
falsy value, i.e. still `null`).  The second argument is the number of
polls left before the deadline (timeout 120 at interval 0.5 gives 240). -/
def checkGo (poll : Nat → Option Resp) (i : Nat) : Nat → Result
  | 0 => .TIMEOUT
  | rem + 1 =>
    match poll i with
    | some r => if r.code = some 200 then .SUCCESS else .FAIL
    | none => checkGo poll (i + 1) rem

/-- `AutomationBot.check_ticket_creation_status`: `budget` is the number
of polls the time budget allows. -/
def check_ticket_creation_status (poll : Nat → Option Resp) (budget : Nat) :
    Result :=
  checkGo poll 0 budget

/-- The default poll budget: timeout 120 time units at interval 0.5. -/
def defaultPollBudget : Nat := 240

/-! ## AutomationBot.process_ticket_creation (src/main.py lines 455-487)

Each browser sub-step's success is an environment field; the three-pass
filter loop (`for filter_attempt in range(3)`) gets per-attempt click
outcomes and per-attempt validation environments. -/

/-- Outcomes the browser delivers to one call of
`process_ticket_creation`: the three dependent dropdown selections, the
filter button lookup, then per filter attempt the filter-button click and
the page state `validate_filter_result` reads, and finally the
creation-step elements (row-level create-ticket icon, the modal's final
create button, the swal confirmation button) with the polls of the
correlated response after the confirmation click. -/
structure TicketEnv where
  cityOk : Bool
  rkOk : Bool
  dpOk : Bool
  filterButtonFound : Bool
  filterClickOk : Nat → Bool
  vEnv : Nat → ValidationEnv
  createIconOk : Bool
  finalCreateOk : Bool
  confirmOk : Bool
  apiPoll : Nat → Option Resp
  apiBudget : Nat

/-- One pass of the filter loop: `retry` covers both a failed filter
click (`continue`) and the MISMATCH / VALIDATION_FAILED statuses. -/
inductive FilterStep where
  | noData
  | matched
  | retry
deriving DecidableEq, Repr

/-- What filter attempt `i` does: click the filter button, then run
`validate_filter_result` on that attempt's page state. -/
def filterStepAt (env : TicketEnv) (expected : String) (i : Nat) : FilterStep :=
  if env.filterClickOk i then
    match (validate_filter_result (env.vEnv i) expected 3).2 with
    | .NO_DATA => .noData
    | .MATCH => .matched
    | _ => .retry
  else .retry

/-- The `for filter_attempt in range(3)` loop: returns whether
`validation_passed` ended up true.  A NO_DATA status returns FAIL from
the whole function, which (like exhausting the three passes) leaves
`validation_passed` false and never reaches creation. -/
def filterLoopGo (env : TicketEnv) (expected : String) (i : Nat) : Nat → Bool
  | 0 => false
  | rem + 1 =>
    match filterStepAt env expected i with
    | .matched => true
    | .noData => false
    | .retry => filterLoopGo env expected (i + 1) rem

/-- Result of `process_ticket_creation` plus whether control reached the
creation step (the code after `if not validation_passed: return "FAIL"`,
which starts by locating and clicking the row-level create-ticket icon). -/
structure PTCOut where
  result : Result
  creationReached : Bool
deriving DecidableEq, Repr

/-- `AutomationBot.process_ticket_creation` for one record: the three
dropdowns, the filter button, the three-pass filter/validate loop, then
the creation clicks and the correlated-response status check. -/
def process_ticket_creation (env : TicketEnv) (expected : String) : PTCOut :=
  if ¬env.cityOk then ⟨.FAIL, false⟩
  else if ¬env.rkOk then ⟨.FAIL, false⟩
  else if ¬env.dpOk then ⟨.FAIL, false⟩
  else if ¬env.filterButtonFound then ⟨.FAIL, false⟩
  else if ¬filterLoopGo env expected 0 3 then ⟨.FAIL, false⟩
  else if ¬env.createIconOk then ⟨.FAIL, true⟩
  else if ¬env.finalCreateOk then ⟨.FAIL, true⟩
  else if ¬env.confirmOk then ⟨.FAIL, true⟩
  else ⟨check_ticket_creation_status env.apiPoll env.apiBudget, true⟩

/-! ## AutomationBot.run_automation (src/main.py lines 518-576)

The orchestrator loop over the work list, with the per-item retry loop
(lines 540-557) and the outcome bookkeeping (lines 559-564). -/

/-- Events of one item's retry loop, for stating how attempts and
refreshes interleave: `att k` is the call
`process_ticket_creation(city, rk, code)` on attempt `k`, `refresh k` the
call `handle_page_refresh_and_navigation()` made after attempt `k`. -/
inductive Ev where
  | att (k : Nat)
  | refresh (k : Nat)
deriving DecidableEq, Repr

/-- The run-level environment: the loaded reference table
(`master_data`, code to (City, RK)), the outcome each
`process_ticket_creation` attempt would produce for a code, whether each
`handle_page_refresh_and_navigation` call would succeed, and
`config.MAX_RETRIES`. -/
structure RunEnv where
  masterData : String → Option (String × String)
  attemptResult : String → Nat → Result
  refreshOk : String → Nat → Bool
  maxRetries : Nat

/-- The `for attempt in range(config.MAX_RETRIES)` loop for one code:
`k` is the current attempt index, the last argument the attempts still
allowed.  SUCCESS and TIMEOUT break immediately; FAIL refreshes and
retries unless this was the last allowed attempt, and a failed refresh
breaks with the FAIL standing.  Returns the final status and the event
trace. -/
def retryGo (env : RunEnv) (code : String) (k : Nat) : Nat → Result × List Ev
  | 0 => (.FAIL, [])
  | rem + 1 =>
    match env.attemptResult code k with
    | .SUCCESS => (.SUCCESS, [.att k])
    | .TIMEOUT => (.TIMEOUT, [.att k])
    | .FAIL =>
      if rem = 0 then (.FAIL, [.att k])
      else if env.refreshOk code k then
        let o := retryGo env code (k + 1) rem
        (o.1, .att k :: .refresh k :: o.2)
      else (.FAIL, [.att k, .refresh k])

/-- The whole retry loop for one code, from attempt 0. -/
def run_retry (env : RunEnv) (code : String) : Result × List Ev :=
  retryGo env code 0 env.maxRetries

/-- `RunStats`: the counters of `self.stats`. -/
structure RunStats where
  successful : Nat
  failed : Nat
  skipped : Nat
deriving DecidableEq, Repr

/-- Orchestrator state: `self.processed_dps` (as the list of codes added,
newest first) and `self.stats`. -/
structure BotState where
  processed : List String
  stats : RunStats
deriving DecidableEq, Repr

/-- One iteration of the work-list loop (lines 531-566) for `code`:
already-processed and not-in-reference codes are skipped with no attempt;
otherwise the retry loop runs and exactly one bucket is updated
(SUCCESS also adds the code to `processed_dps`).  Returns the new state
and the item's event trace. -/
def processItem (env : RunEnv) (st : BotState) (code : String) :
    BotState × List Ev :=
  if code ∈ st.processed then
    (⟨st.processed, ⟨st.stats.successful, st.stats.failed, st.stats.skipped + 1⟩⟩, [])
  else
    match env.masterData code with
    | none =>
      (⟨st.processed, ⟨st.stats.successful, st.stats.failed, st.stats.skipped + 1⟩⟩, [])
    | some _ =>
      let r := run_retry env code
      match r.1 with
      | .SUCCESS =>
        (⟨code :: st.processed, ⟨st.stats.successful + 1, st.stats.failed, st.stats.skipped⟩⟩, r.2)
      | .TIMEOUT =>
        (⟨st.processed, ⟨st.stats.successful, st.stats.failed, st.stats.skipped + 1⟩⟩, r.2)
      | .FAIL =>
        (⟨st.processed, ⟨st.stats.successful, st.stats.failed + 1, st.stats.skipped⟩⟩, r.2)

/-- The work-list loop folded over the (remaining) work list. -/
def runLoop (env : RunEnv) (st : BotState) : List String → BotState
  | [] => st
  | code :: rest => runLoop env (processItem env st code).1 rest

/-- `AutomationBot.run_automation`'s processing phase: `processed_dps`
is cleared before the loop and the stats counters start at 0 (the bot is
freshly constructed for the run). -/
def run_automation (env : RunEnv) (workList : List String) : BotState :=
  runLoop env ⟨[], ⟨0, 0, 0⟩⟩ workList

/-- Counter total for stating the partition invariant. -/
def statsSum (st : BotState) : Nat :=
  st.stats.successful + st.stats.failed + st.stats.skipped

/-- `matchedAt env expected i`: filter attempt `i` clicked the filter
button successfully and the validator returned MATCH for it. -/
def matchedAt (env : TicketEnv) (expected : String) (i : Nat) : Bool :=
  env.filterClickOk i &&
    decide ((validate_filter_result (env.vEnv i) expected 3).2 = .MATCH)

/-- Whether a code has an entry in the loaded reference table. -/
def hasRef (env : RunEnv) (c : String) : Bool :=
  (env.masterData c).isSome

/-- Concrete run environment for witness checks: only `A1` is in the
reference table; every attempt succeeds. -/
def demoRunEnv : RunEnv :=
  ⟨fun c => if c = "A1" then some ("CityX", "RegionY") else none,
   fun _ _ => .SUCCESS, fun _ _ => true, 3⟩

/-- Concrete run environment whose attempts all FAIL and whose
refreshes all succeed. -/
def failRunEnv : RunEnv :=
  ⟨fun _ => some ("CityX", "RegionY"), fun _ _ => .FAIL, fun _ _ => true, 3⟩

/-- Concrete run environment whose attempts all TIMEOUT. -/
def timeoutRunEnv : RunEnv :=
  ⟨fun _ => some ("CityX", "RegionY"), fun _ _ => .TIMEOUT, fun _ _ => true, 3⟩

/-- Concrete ticket environment where every browser step succeeds, the
result row shows the expected code and the first poll sees a 200. -/
def happyTicketEnv : TicketEnv :=
  ⟨true, true, true, true, fun _ => true,
   fun _ => ⟨fun _ => false, fun _ => some "DP001"⟩,
   true, true, true, fun _ => some ⟨some 200, false⟩, defaultPollBudget⟩

/-- Concrete ticket environment whose city dropdown selection fails. -/
def cityFailTicketEnv : TicketEnv :=
  ⟨false, true, true, true, fun _ => true,
   fun _ => ⟨fun _ => false, fun _ => some "DP001"⟩,
   true, true, true, fun _ => some ⟨some 200, false⟩, defaultPollBudget⟩

/-- Page state with the no-data indicator visible. -/
def noDataValidationEnv : ValidationEnv :=
  ⟨fun _ => true, fun _ => some "DP001"⟩

/-- Page state whose first row shows a different code. -/
def mismatchValidationEnv : ValidationEnv :=
  ⟨fun _ => false, fun _ => some "DP002"⟩

/-- Page state whose first-row cell text carries a trailing space. -/
def trailingSpaceValidationEnv : ValidationEnv :=
  ⟨fun _ => false, fun _ => some "DP001 "⟩

/-- Poll sequences for witness checks. -/
def silentPoll : Nat → Option Resp := fun _ => none

/-- Poll sequence that always reports a 200 response. -/
def okPoll : Nat → Option Resp := fun _ => some ⟨some 200, false⟩

/-- Poll sequence that always reports the parse-error marker. -/
def markerPoll : Nat → Option Resp := fun _ => some (listenerStore none)

/-- The event trace of a run of the retry loop that makes `k` failing
attempts (each followed by its recovery refresh) and then attempt `k`
with some terminal outcome. -/
def timeoutTrace (k : Nat) : List Ev :=
  ((List.range k).map (fun j => [Ev.att j, Ev.refresh j])).flatten ++ [Ev.att k]

/-! ## Lemmas about the orchestrator loop -/

/-- Each loop iteration moves the counter total up by exactly one: the
item lands in exactly one of the three buckets. -/
theorem statsSum_processItem (env : RunEnv) (st : BotState) (code : String) :
    statsSum (processItem env st code).1 = statsSum st + 1 := by
  by_cases hc : code ∈ st.processed
  · simp [processItem, hc, statsSum]; omega
  · cases hm : env.masterData code with
    | none => simp [processItem, hc, hm, statsSum]; omega
    | some v =>
      cases hr : (run_retry env code).1 with
      | SUCCESS => simp [processItem, hc, hm, hr, statsSum]; omega
      | FAIL => simp [processItem, hc, hm, hr, statsSum]; omega
      | TIMEOUT => simp [processItem, hc, hm, hr, statsSum]; omega

/-- Counter total after a stretch of the loop. -/
theorem statsSum_runLoop (env : RunEnv) (l : List String) (st : BotState) :
    statsSum (runLoop env st l) = statsSum st + l.length := by
  induction l generalizing st with
  | nil => simp [runLoop]
  | cons c rest ih =>
    simp only [runLoop, ih, statsSum_processItem, List.length_cons]
    omega

/-- A code can only enter `processed_dps` during an iteration on that
very code, and only when its reference lookup succeeded. -/
theorem processed_processItem (env : RunEnv) (st : BotState) (code : String) :
    ∀ c ∈ (processItem env st code).1.processed,
      c ∈ st.processed ∨ (c = code ∧ (env.masterData c).isSome) := by
  intro c hcmem
  by_cases hc : code ∈ st.processed
  · simp_all [processItem]
  · cases hm : env.masterData code with
    | none => simp_all [processItem]
    | some v =>
      cases hr : (run_retry env code).1 with
      | SUCCESS =>
        simp only [processItem, hc, if_neg, hm, hr] at hcmem
        rcases List.mem_cons.mp hcmem with h | h
        · exact Or.inr ⟨h, by simp [h, hm]⟩
        · exact Or.inl h
      | FAIL => simp_all [processItem]
      | TIMEOUT => simp_all [processItem]

/-- Invariant of the loop: codes in `processed_dps` come from the items
iterated over so far and have a reference-table entry. -/
theorem processed_runLoop (env : RunEnv) (l : List String) (st : BotState) :
    ∀ c ∈ (runLoop env st l).processed,
      c ∈ st.processed ∨ (c ∈ l ∧ (env.masterData c).isSome) := by
  induction l generalizing st with
  | nil => intro c hcmem; exact Or.inl hcmem
  | cons a rest ih =>
    intro c hcmem
    rcases ih (processItem env st a).1 c hcmem with h | h
    · rcases processed_processItem env st a c h with h2 | h2
      · exact Or.inl h2
      · exact Or.inr ⟨by simp [h2.1], h2.2⟩
    · exact Or.inr ⟨List.mem_cons_of_mem a h.1, h.2⟩

/-! ## Lemmas about the retry loop -/

/-- If attempts `a, …, k-1` all FAIL with successful refreshes and
attempt `k` returns TIMEOUT, the loop stops right at attempt `k`: the
trace ends with `att k` — no retry and no refresh after the timeout. -/
theorem retryGo_timeout (env : RunEnv) (code : String) :
    ∀ rem a k, a ≤ k → k < a + rem →
    (∀ j, a ≤ j → j < k → env.attemptResult code j = .FAIL) →
    (∀ j, a ≤ j → j < k → env.refreshOk code j = true) →
    env.attemptResult code k = .TIMEOUT →
    retryGo env code a rem =
      (.TIMEOUT,
        ((List.range' a (k - a)).map (fun j => [Ev.att j, Ev.refresh j])).flatten
          ++ [Ev.att k]) := by
  intro rem
  induction rem with
  | zero => intro a k hak hlt; omega
  | succ rem ih =>
    intro a k hak hlt hfail hrefresh ht
    rcases Nat.eq_or_lt_of_le hak with heq | hlt2
    · subst heq
      simp [retryGo, ht]
    · have ha : env.attemptResult code a = .FAIL := hfail a le_rfl hlt2
      have hra : env.refreshOk code a = true := hrefresh a le_rfl hlt2
      have hrem : rem ≠ 0 := by omega
      have ihres := ih (a + 1) k hlt2 (by omega)
        (fun j hj1 hj2 => hfail j (by omega) hj2)
        (fun j hj1 hj2 => hrefresh j (by omega) hj2) ht
      have hk : k - a = (k - (a + 1)) + 1 := by omega
      simp only [retryGo, ha, hrem, if_false, hra, if_true, ihres, hk,
        List.range'_succ, List.map_cons, List.flatten_cons]
      simp

/-- One failing-and-refreshing pass of the retry loop, unfolded once:
attempt `a` FAILs, the refresh succeeds, and the loop continues at
attempt `a + 1`. -/
theorem retryGo_fail_step (env : RunEnv) (code : String) (a rem : Nat)
    (ha : env.attemptResult code a = .FAIL)
    (hr : env.refreshOk code a = true) :
    retryGo env code a (rem + 2) =
      ((retryGo env code (a + 1) (rem + 1)).1,
        .att a :: .refresh a :: (retryGo env code (a + 1) (rem + 1)).2) := by
  conv_lhs => rw [retryGo]
  rw [ha]
  simp [hr]

/-- With every attempt failing and every refresh succeeding, the loop
uses all its attempts: `rem + 1` attempts starting at `a`, a refresh
after each except the last. -/
theorem retryGo_allFail (env : RunEnv) (code : String)
    (hfail : ∀ j, env.attemptResult code j = .FAIL)
    (hrefresh : ∀ j, env.refreshOk code j = true) :
    ∀ rem a, retryGo env code a (rem + 1) =
      (.FAIL,
        ((List.range' a rem).map (fun j => [Ev.att j, Ev.refresh j])).flatten
          ++ [Ev.att (a + rem)]) := by
  intro rem
  induction rem with
  | zero => intro a; simp [retryGo, hfail]
  | succ rem ih =>
    intro a
    rw [retryGo_fail_step env code a rem (hfail a) (hrefresh a), ih (a + 1)]
    simp [List.range'_succ]
    omega


/-! ## Lemmas about the filter loop and the status-check loop -/

/-- A pass of the filter loop counts as `matched` exactly when the
filter click succeeded and the validator returned MATCH. -/
theorem filterStepAt_matched (env : TicketEnv) (expected : String) (i : Nat)
    (h : filterStepAt env expected i = .matched) :
    env.filterClickOk i = true ∧
    (validate_filter_result (env.vEnv i) expected 3).2 = .MATCH := by
  by_cases hclick : env.filterClickOk i
  · refine ⟨hclick, ?_⟩
    cases hv : (validate_filter_result (env.vEnv i) expected 3).2 <;>
      simp_all [filterStepAt]
  · simp [filterStepAt, hclick] at h

/-- If the filter loop ends with `validation_passed` true, some pass in
its window was a `matched` pass. -/
theorem filterLoopGo_true (env : TicketEnv) (expected : String) :
    ∀ rem i, filterLoopGo env expected i rem = true →
      ∃ j, i ≤ j ∧ j < i + rem ∧ filterStepAt env expected j = .matched := by
  intro rem
  induction rem with
  | zero => intro i h; simp [filterLoopGo] at h
  | succ rem ih =>
    intro i h
    cases hs : filterStepAt env expected i with
    | matched => exact ⟨i, le_rfl, by omega, hs⟩
    | noData => simp [filterLoopGo, hs] at h
    | retry =>
      simp only [filterLoopGo, hs] at h
      obtain ⟨j, hj1, hj2, hj3⟩ := ih (i + 1) h
      exact ⟨j, by omega, by omega, hj3⟩

/-- If none of the polls inside the window sees a response, the check
loop times out. -/
theorem checkGo_timeout (poll : Nat → Option Resp) :
    ∀ rem a, (∀ i, a ≤ i → i < a + rem → poll i = none) →
      checkGo poll a rem = .TIMEOUT := by
  intro rem
  induction rem with
  | zero => intro a h; rfl
  | succ rem ih =>
    intro a h
    have ha : poll a = none := h a le_rfl (by omega)
    simp only [checkGo, ha]
    exact ih (a + 1) (fun i h1 h2 => h i (by omega) (by omega))

/-- The check loop classifies the first response it can see: status code
200 gives SUCCESS, anything else FAIL. -/
theorem checkGo_first (poll : Nat → Option Resp) :
    ∀ rem a j r, a ≤ j → j < a + rem → poll j = some r →
      (∀ i, a ≤ i → i < j → poll i = none) →
      checkGo poll a rem = if r.code = some 200 then .SUCCESS else .FAIL := by
  intro rem
  induction rem with
  | zero => intro a j r h1 h2; omega
  | succ rem ih =>
    intro a j r haj hlt hj hnone
    rcases Nat.eq_or_lt_of_le haj with heq | hlt2
    · subst heq
      simp [checkGo, hj]
    · have ha : poll a = none := hnone a le_rfl hlt2
      simp only [checkGo, ha]
      exact ih (a + 1) j r hlt2 (by omega) hj
        (fun i h1 h2 => hnone i (by omega) h2)

/-- The check loop reads nothing beyond its poll window. -/
theorem checkGo_congr (poll poll2 : Nat → Option Resp) :
    ∀ rem a, (∀ i, a ≤ i → i < a + rem → poll i = poll2 i) →
      checkGo poll a rem = checkGo poll2 a rem := by
  intro rem
  induction rem with
  | zero => intro a h; rfl
  | succ rem ih =>
    intro a h
    have ha : poll a = poll2 a := h a le_rfl (by omega)
    simp only [checkGo, ha]
    cases poll2 a with
    | some r => rfl
    | none => exact ih (a + 1) (fun i h1 h2 => h i (by omega) (by omega))

/-- The creation step is reached exactly when the three dropdowns, the
filter-button lookup and the filter/validate loop all succeeded. -/
theorem creationReached_eq (env : TicketEnv) (expected : String) :
    (process_ticket_creation env expected).creationReached =
      (env.cityOk && env.rkOk && env.dpOk && env.filterButtonFound &&
        filterLoopGo env expected 0 3) := by
  unfold process_ticket_creation
  split_ifs <;> simp_all

/-- An attempt that never reaches the creation step returns FAIL. -/
theorem result_FAIL_of_not_reached (env : TicketEnv) (expected : String)
    (h : (process_ticket_creation env expected).creationReached = false) :
    (process_ticket_creation env expected).result = .FAIL := by
  unfold process_ticket_creation at h ⊢
  split_ifs at h ⊢ <;> simp_all

/-! ## Lemmas about the work-list loader -/

/-- Unfolding equation of `dedupKeepFirst` on a cons. -/
theorem dedupKeepFirst_cons (a : String) (rest : List String) :
    dedupKeepFirst (a :: rest) =
      a :: dedupKeepFirst (rest.filter (fun x => x ≠ a)) := by
  rw [dedupKeepFirst.eq_def]

/-- Filtering away `seen` and then `t` is filtering away `t :: seen`. -/
theorem filter_filter_notmem (t : String) (seen : List String)
    (l : List String) :
    (l.filter (fun x => x ∉ seen)).filter (fun x => x ≠ t) =
      l.filter (fun x => x ∉ t :: seen) := by
  induction l with
  | nil => rfl
  | cons a l ih =>
    by_cases h2 : a = t
    · subst h2
      by_cases h1 : a ∈ seen <;>
        simp [List.filter_cons, h1, ih, List.mem_cons]
    · by_cases h1 : a ∈ seen <;>
        simp [List.filter_cons, h1, h2, ih, List.mem_cons]

/-- The loader's interleaved seen-set loop equals the staged spec
description: keep the good lines not yet seen and collapse duplicates to
their first occurrence. -/
theorem readDailyGo_eq (lines : List String) :
    ∀ seen, readDailyGo seen lines =
      dedupKeepFirst ((goodLines lines).filter (fun t => t ∉ seen)) := by
  induction lines with
  | nil =>
    intro seen
    rw [readDailyGo, goodLines]
    simp [dedupKeepFirst]
  | cons l rest ih =>
    intro seen
    by_cases hb : pyStrip l = "" ∨ startsWithHash (pyStrip l)
    · have hcond : pyStrip l = "" ∨ startsWithHash (pyStrip l) ∨ pyStrip l ∈ seen := by
        tauto
      rw [readDailyGo, if_pos hcond, goodLines, if_pos hb]
      exact ih seen
    · rw [goodLines, if_neg hb]
      by_cases hs : pyStrip l ∈ seen
      · have hcond : pyStrip l = "" ∨ startsWithHash (pyStrip l) ∨ pyStrip l ∈ seen := by
          tauto
        rw [readDailyGo, if_pos hcond, List.filter_cons]
        simp only [hs, not_true_eq_false, decide_False, Bool.false_eq_true,
          if_false]
        exact ih seen
      · have hcond : ¬(pyStrip l = "" ∨ startsWithHash (pyStrip l) ∨ pyStrip l ∈ seen) := by
          tauto
        rw [readDailyGo, if_neg hcond, List.filter_cons]
        simp only [hs, not_false_eq_true, decide_True, if_true]
        rw [dedupKeepFirst_cons, filter_filter_notmem]
        rw [ih (pyStrip l :: seen)]

/-- Everything `dedupKeepFirst` returns comes from its input. -/
theorem mem_dedupKeepFirst (x : String) :
    ∀ l, x ∈ dedupKeepFirst l → x ∈ l := by
  intro l
  induction l using dedupKeepFirst.induct with
  | case1 => intro h; simp [dedupKeepFirst] at h
  | case2 a rest ih =>
    intro h
    rw [dedupKeepFirst_cons] at h
    rcases List.mem_cons.mp h with h | h
    · simp [h]
    · exact List.mem_cons_of_mem a (List.mem_of_mem_filter (ih h))

/-- `dedupKeepFirst` returns no duplicates. -/
theorem nodup_dedupKeepFirst : ∀ l, (dedupKeepFirst l).Nodup := by
  intro l
  induction l using dedupKeepFirst.induct with
  | case1 => simp [dedupKeepFirst]
  | case2 a rest ih =>
    rw [dedupKeepFirst_cons]
    refine List.nodup_cons.mpr ⟨?_, ih⟩
    intro hmem
    have := mem_dedupKeepFirst a _ hmem
    simp at this

/-! ## Claim theorems -/

/-- C1: over any work list, the run statistics satisfy
successful + failed + skipped = totalItems once processing completes,
and at every intermediate point (after any prefix of the items) the sum
equals the number of items handled so far, hence is at most totalItems;
each handled item moves the sum up by exactly one, i.e. lands in exactly
one of the three buckets. -/
theorem C1_stats_partition (env : RunEnv) (workList p s : List String)
    (h : workList = p ++ s) :
    statsSum (run_automation env workList) = workList.length ∧
    statsSum (runLoop env ⟨[], ⟨0, 0, 0⟩⟩ p) = p.length ∧
    statsSum (runLoop env ⟨[], ⟨0, 0, 0⟩⟩ p) ≤ workList.length ∧
    ∀ st code, statsSum (processItem env st code).1 = statsSum st + 1 := by
  have hinit : statsSum ⟨[], ⟨0, 0, 0⟩⟩ = 0 := rfl
  refine ⟨?_, ?_, ?_, fun st code => statsSum_processItem env st code⟩
  · rw [run_automation, statsSum_runLoop, hinit]
    omega
  · rw [statsSum_runLoop, hinit]
    omega
  · rw [statsSum_runLoop, hinit, h]
    simp

/-- C1 witness: a concrete two-item run. -/
theorem C1_stats_partition_witness :
    statsSum (run_automation demoRunEnv ["A1", "A2"]) = 2 ∧
    statsSum (runLoop demoRunEnv ⟨[], ⟨0, 0, 0⟩⟩ ["A1"]) = 1 ∧
    statsSum (runLoop demoRunEnv ⟨[], ⟨0, 0, 0⟩⟩ ["A1"]) ≤ 2 ∧
    statsSum (processItem demoRunEnv ⟨[], ⟨0, 0, 0⟩⟩ "A1").1 =
      statsSum ⟨[], ⟨0, 0, 0⟩⟩ + 1 := by
  obtain ⟨h1, h2, h3, h4⟩ :=
    C1_stats_partition demoRunEnv ["A1", "A2"] ["A1"] ["A2"] rfl
  exact ⟨h1, h2, h3, h4 ⟨[], ⟨0, 0, 0⟩⟩ "A1"⟩

/-- C2: the creation step is reached only when some filter attempt of
the same `process_ticket_creation` call clicked the filter and got MATCH
from the validator; and whenever creation is not reached (any failed
sub-step: dropdown, element lookup, click, validation) the attempt
returns FAIL. -/
theorem C2_no_creation_without_match (env : TicketEnv) (expected : String) :
    ((process_ticket_creation env expected).creationReached = true →
      (List.range 3).any (matchedAt env expected) = true) ∧
    ((process_ticket_creation env expected).creationReached = false →
      (process_ticket_creation env expected).result = .FAIL) := by
  constructor
  · intro h
    rw [creationReached_eq] at h
    simp only [Bool.and_eq_true] at h
    obtain ⟨⟨⟨⟨hc, hr⟩, hd⟩, hf⟩, hl⟩ := h
    obtain ⟨j, hj0, hj3, hjm⟩ := filterLoopGo_true env expected 3 0 hl
    obtain ⟨hclick, hmatch⟩ := filterStepAt_matched env expected j hjm
    refine List.any_eq_true.mpr ⟨j, List.mem_range.mpr (by omega), ?_⟩
    simp [matchedAt, hclick, hmatch]
  · exact result_FAIL_of_not_reached env expected

/-- C2 witness: the all-steps-succeed environment reaches creation with
a matched filter attempt; a failed city dropdown yields FAIL. -/
theorem C2_no_creation_without_match_witness :
    (List.range 3).any (matchedAt happyTicketEnv "DP001") = true ∧
    (process_ticket_creation cityFailTicketEnv "DP001").result = .FAIL :=
  ⟨(C2_no_creation_without_match happyTicketEnv "DP001").1 (by decide),
   (C2_no_creation_without_match cityFailTicketEnv "DP001").2 (by decide)⟩

/-- C3: if attempts before `k` FAIL with successful recoveries and
attempt `k` returns TIMEOUT, the retry loop ends at attempt `k` (its
trace ends with `att k`: no further attempt, no refresh after it), the
code is not added to `processed_dps`, and only the skipped counter is
incremented. -/
theorem C3_timeout_terminal (env : RunEnv) (st : BotState) (code : String)
    (k : Nat)
    (hk : k < env.maxRetries)
    (hfail : ∀ j, j < k → env.attemptResult code j = .FAIL)
    (hrefresh : ∀ j, j < k → env.refreshOk code j = true)
    (ht : env.attemptResult code k = .TIMEOUT)
    (hnp : code ∉ st.processed)
    (hm : (env.masterData code).isSome) :
    run_retry env code = (.TIMEOUT, timeoutTrace k) ∧
    (processItem env st code).1 =
      ⟨st.processed, ⟨st.stats.successful, st.stats.failed,
        st.stats.skipped + 1⟩⟩ := by
  have hrun : run_retry env code = (.TIMEOUT, timeoutTrace k) := by
    have h := retryGo_timeout env code env.maxRetries 0 k (Nat.zero_le k)
      (by omega) (fun j _ hj => hfail j hj) (fun j _ hj => hrefresh j hj) ht
    rw [run_retry, h]
    simp [timeoutTrace, List.range_eq_range']
  refine ⟨hrun, ?_⟩
  obtain ⟨v, hv⟩ := Option.isSome_iff_exists.mp hm
  simp [processItem, hnp, hv, hrun]

/-- C3 witness: the very first attempt times out. -/
theorem C3_timeout_terminal_witness :
    run_retry timeoutRunEnv "A1" = (.TIMEOUT, timeoutTrace 0) ∧
    (processItem timeoutRunEnv ⟨[], ⟨0, 0, 0⟩⟩ "A1").1 = ⟨[], ⟨0, 0, 1⟩⟩ :=
  C3_timeout_terminal timeoutRunEnv ⟨[], ⟨0, 0, 0⟩⟩ "A1" 0 (by decide)
    (fun j hj => absurd hj (Nat.not_lt_zero j))
    (fun j hj => absurd hj (Nat.not_lt_zero j)) rfl (by simp) rfl

/-- C4: a code with no reference-table entry is skipped with no
per-record attempt (empty event trace): the skipped counter moves up by
one and `processed_dps`, the successful and the failed counters are
untouched. -/
theorem C4_missing_reference_skipped (env : RunEnv) (st : BotState)
    (code : String) (h : env.masterData code = none) :
    processItem env st code =
      (⟨st.processed, ⟨st.stats.successful, st.stats.failed,
        st.stats.skipped + 1⟩⟩, []) := by
  by_cases hc : code ∈ st.processed <;> simp [processItem, hc, h]

/-- C4 witness: `A2` is not in the demo reference table. -/
theorem C4_missing_reference_skipped_witness :
    processItem demoRunEnv ⟨[], ⟨0, 0, 0⟩⟩ "A2" = (⟨[], ⟨0, 0, 1⟩⟩, []) :=
  C4_missing_reference_skipped demoRunEnv ⟨[], ⟨0, 0, 0⟩⟩ "A2" (by decide)

/-- C5: the status check returns TIMEOUT when no poll in its budget sees
a response; it classifies the first visible response — SUCCESS exactly
when its numeric status code is 200, FAIL otherwise; and it never reads
a poll beyond its budget. -/
theorem C5_status_classification (poll : Nat → Option Resp) (budget : Nat) :
    ((∀ i, i < budget → poll i = none) →
      check_ticket_creation_status poll budget = .TIMEOUT) ∧
    (∀ j r, j < budget → poll j = some r → (∀ i, i < j → poll i = none) →
      check_ticket_creation_status poll budget =
        if r.code = some 200 then .SUCCESS else .FAIL) ∧
    (∀ poll2, (∀ i, i < budget → poll i = poll2 i) →
      check_ticket_creation_status poll budget =
        check_ticket_creation_status poll2 budget) := by
  refine ⟨?_, ?_, ?_⟩
  · intro h
    exact checkGo_timeout poll budget 0 (fun i _ h2 => h i (by omega))
  · intro j r hj hpj hnone
    exact checkGo_first poll budget 0 j r (Nat.zero_le j) (by omega) hpj
      (fun i _ h2 => hnone i h2)
  · intro poll2 h
    exact checkGo_congr poll poll2 budget 0 (fun i _ h2 => h i (by omega))

/-- C5 witness: silence for the whole default budget times out; an
immediate 200 response is SUCCESS. -/
theorem C5_status_classification_witness :
    check_ticket_creation_status silentPoll defaultPollBudget = .TIMEOUT ∧
    check_ticket_creation_status okPoll defaultPollBudget = .SUCCESS := by
  constructor
  · exact (C5_status_classification silentPoll defaultPollBudget).1
      (fun i h => rfl)
  · have h := (C5_status_classification okPoll defaultPollBudget).2.1 0
      ⟨some 200, false⟩ (by decide) rfl
      (fun i hi => absurd hi (Nat.not_lt_zero i))
    simpa using h

/-- C6 counterexample: the code compares the cell text after stripping
whitespace, so the cell text "DP001 " — a value other than the expected
code "DP001" — yields MATCH, where the claim as stated demands MISMATCH
for any other value. -/
theorem C6_validator_counterexample :
    ("DP001 " : String) ≠ "DP001" ∧
    trailingSpaceValidationEnv.noDataVisible 0 = false ∧
    trailingSpaceValidationEnv.resultCell 0 = some "DP001 " ∧
    validate_filter_result trailingSpaceValidationEnv "DP001" 3 =
      (true, .MATCH) := by
  refine ⟨by decide, rfl, rfl, by decide⟩

/-- C6 amended: with the no-data indicator visible the validator returns
NO_DATA regardless of the result cell; otherwise a found first-row cell
gives MATCH exactly when its whitespace-stripped text equals the
expected code and MISMATCH for any other value. -/
theorem C6_validator_amended (env : ValidationEnv) (expected : String) :
    (env.noDataVisible 0 = true →
      validate_filter_result env expected 3 = (false, .NO_DATA)) ∧
    (env.noDataVisible 0 = false → ∀ t, env.resultCell 0 = some t →
      validate_filter_result env expected 3 =
        if pyStrip t = expected then (true, .MATCH)
        else (false, .MISMATCH)) := by
  constructor
  · intro h
    show validateGo env expected 0 (2 + 1) = (false, .NO_DATA)
    conv_lhs => rw [validateGo]
    rw [h]
    simp
  · intro h t ht
    show validateGo env expected 0 (2 + 1) = _
    conv_lhs => rw [validateGo]
    rw [h, ht]
    simp

/-- C6 witness: a visible no-data indicator wins; a different code in
the cell is MISMATCH. -/
theorem C6_validator_amended_witness :
    validate_filter_result noDataValidationEnv "DP001" 3 =
      (false, .NO_DATA) ∧
    validate_filter_result mismatchValidationEnv "DP001" 3 =
      (false, .MISMATCH) := by
  constructor
  · exact (C6_validator_amended noDataValidationEnv "DP001").1 rfl
  · have h := (C6_validator_amended mismatchValidationEnv "DP001").2 rfl
      "DP002" rfl
    rw [h]
    decide

/-- C7: with MAX_RETRIES = 3, all attempts failing and all recoveries
succeeding, exactly 3 attempts happen, a refresh + re-navigation sits
between consecutive attempts and none follows the final attempt, and the
item lands in the failed bucket. -/
theorem C7_retry_exhaustion (env : RunEnv) (st : BotState) (code : String)
    (hmax : env.maxRetries = 3)
    (hfail : ∀ j, env.attemptResult code j = .FAIL)
    (hrefresh : ∀ j, env.refreshOk code j = true)
    (hnp : code ∉ st.processed)
    (hm : (env.masterData code).isSome) :
    run_retry env code =
      (.FAIL, [.att 0, .refresh 0, .att 1, .refresh 1, .att 2]) ∧
    (processItem env st code).1 =
      ⟨st.processed, ⟨st.stats.successful, st.stats.failed + 1,
        st.stats.skipped⟩⟩ := by
  have e2 : retryGo env code 2 1 = (.FAIL, [.att 2]) := by
    conv_lhs => rw [retryGo]
    rw [hfail 2]
    rfl
  have e1 : retryGo env code 1 2 = (.FAIL, [.att 1, .refresh 1, .att 2]) := by
    have h := retryGo_fail_step env code 1 0 (hfail 1) (hrefresh 1)
    simpa [e2] using h
  have e0 : retryGo env code 0 3 =
      (.FAIL, [.att 0, .refresh 0, .att 1, .refresh 1, .att 2]) := by
    have h := retryGo_fail_step env code 0 1 (hfail 0) (hrefresh 0)
    simpa [e1] using h
  have hrun : run_retry env code =
      (.FAIL, [.att 0, .refresh 0, .att 1, .refresh 1, .att 2]) := by
    rw [run_retry, hmax, e0]
  refine ⟨hrun, ?_⟩
  obtain ⟨v, hv⟩ := Option.isSome_iff_exists.mp hm
  simp [processItem, hnp, hv, hrun]

/-- C7 witness: the always-FAIL environment on a fresh state. -/
theorem C7_retry_exhaustion_witness :
    run_retry failRunEnv "A1" =
      (.FAIL, [.att 0, .refresh 0, .att 1, .refresh 1, .att 2]) ∧
    (processItem failRunEnv ⟨[], ⟨0, 0, 0⟩⟩ "A1").1 = ⟨[], ⟨0, 1, 0⟩⟩ :=
  C7_retry_exhaustion failRunEnv ⟨[], ⟨0, 0, 0⟩⟩ "A1" rfl (fun j => rfl)
    (fun j => rfl) (by simp) rfl

/-- C8: at every point of the run (after any prefix of the work list)
the processed set only contains work-list codes, and every processed
code has a reference-table entry. -/
theorem C8_processed_subset (env : RunEnv) (workList p s : List String)
    (h : workList = p ++ s) :
    (runLoop env ⟨[], ⟨0, 0, 0⟩⟩ p).processed ⊆ workList ∧
    ((runLoop env ⟨[], ⟨0, 0, 0⟩⟩ p).processed.all (hasRef env)) = true ∧
    (run_automation env workList).processed ⊆ workList ∧
    ((run_automation env workList).processed.all (hasRef env)) = true := by
  have key : ∀ l : List String, ∀ c ∈ (runLoop env ⟨[], ⟨0, 0, 0⟩⟩ l).processed,
      c ∈ l ∧ (env.masterData c).isSome := by
    intro l c hc
    rcases processed_runLoop env l ⟨[], ⟨0, 0, 0⟩⟩ c hc with h2 | h2
    · simp at h2
    · exact h2
  subst h
  refine ⟨?_, ?_, ?_, ?_⟩
  · intro c hc
    exact List.mem_append_left s (key p c hc).1
  · rw [List.all_eq_true]
    intro c hc
    exact (key p c hc).2
  · intro c hc
    exact (key (p ++ s) c hc).1
  · rw [List.all_eq_true]
    intro c hc
    exact (key (p ++ s) c hc).2

/-- C8 witness: a concrete two-item run. -/
theorem C8_processed_subset_witness :
    (run_automation demoRunEnv ["A1", "A2"]).processed ⊆ ["A1", "A2"] ∧
    ((run_automation demoRunEnv ["A1", "A2"]).processed.all
      (hasRef demoRunEnv)) = true := by
  obtain ⟨h1, h2, h3, h4⟩ :=
    C8_processed_subset demoRunEnv ["A1", "A2"] ["A1", "A2"] [] (by simp)
  exact ⟨h3, h4⟩

/-- C9: the daily work-list loader returns exactly the stripped
non-empty non-comment lines with every duplicate collapsed to its first
occurrence in first-seen order, and hence contains no duplicates. -/
theorem C9_daily_input_dedup (lines : List String) :
    read_daily_input lines = dedupKeepFirst (goodLines lines) ∧
    (read_daily_input lines).Nodup := by
  have h := readDailyGo_eq lines []
  have h2 : (goodLines lines).filter
      (fun t => t ∉ ([] : List String)) = goodLines lines := by
    simp
  constructor
  · rw [read_daily_input, h, h2]
  · rw [read_daily_input, h]
    exact nodup_dedupKeepFirst _

/-- C9 witness: a concrete file with blanks, comments and duplicates. -/
theorem C9_daily_input_dedup_witness :
    read_daily_input ["A1", "", "# note", " A1 ", "A2"] =
      dedupKeepFirst (goodLines ["A1", "", "# note", " A1 ", "A2"]) ∧
    (read_daily_input ["A1", "", "# note", " A1 ", "A2"]).Nodup :=
  C9_daily_input_dedup ["A1", "", "# note", " A1 ", "A2"]

/-- C10: the listener's parse-error marker has no status-code field, and
the status check classifies it (as the first visible response) as FAIL —
never SUCCESS, never TIMEOUT. -/
theorem C10_parse_error_is_fail (poll : Nat → Option Resp) (budget j : Nat)
    (hj : j < budget)
    (hnone : ∀ i, i < j → poll i = none)
    (hmarker : poll j = some (listenerStore none)) :
    (listenerStore none).code = none ∧
    check_ticket_creation_status poll budget = .FAIL ∧
    check_ticket_creation_status poll budget ≠ .SUCCESS ∧
    check_ticket_creation_status poll budget ≠ .TIMEOUT := by
  have h := checkGo_first poll budget 0 j (listenerStore none)
    (Nat.zero_le j) (by omega) hmarker (fun i _ h2 => hnone i h2)
  rw [show (listenerStore none).code = none from rfl] at h
  simp only [if_neg (by simp : ¬(none : Option Int) = some 200)] at h
  have h2 : check_ticket_creation_status poll budget = .FAIL := h
  exact ⟨rfl, h2, by rw [h2]; decide, by rw [h2]; decide⟩

/-- C10 witness: the marker arrives on the first poll. -/
theorem C10_parse_error_is_fail_witness :
    (listenerStore none).code = none ∧
    check_ticket_creation_status markerPoll defaultPollBudget = .FAIL := by
  obtain ⟨h1, h2, h3, h4⟩ := C10_parse_error_is_fail markerPoll
    defaultPollBudget 0 (by decide)
    (fun i hi => absurd hi (Nat.not_lt_zero i)) rfl
  exact ⟨h1, h2⟩

end TicketAutomation
